import Mathlib

/-!
Shallow embedding of `persistent_bot.py`, the supervisor of the ZetShopUZ
Telegram bot: the restart ledger with its 24h prune and adaptive backoff
schedule, the daily restart cap, the main spawn/wait/restart loop, the
interruptible backoff sleep, and the health-check HTTP surface with its
remote-identity and host-stat probes.

Timestamps are modelled as integers (seconds); the flag-setting instant of
the interruptible sleep is a rational, so that sub-second instants are
representable.
-/

/-- Configuration constant `MAX_RESTARTS` (persistent_bot.py line 46). -/
def MAX_RESTARTS : ℕ := 20

/-- Configuration constant `RESTART_DELAY` (line 47). -/
def RESTART_DELAY : ℕ := 10

/-- Configuration constant `RESTART_BACKOFF_MAX` (line 48). -/
def RESTART_BACKOFF_MAX : ℕ := 300

/-- The prune step of `calculate_restart_delay` (lines 143-144): keep only
the timestamps strictly newer than `now - 86400`. -/
def prune_timestamps (now : ℤ) (ts : List ℤ) : List ℤ :=
  ts.filter (fun t => decide (now - 86400 < t))

/-- The delay schedule of `calculate_restart_delay` (lines 150-158), as a
function of the restart count (the ledger length after prune and append). -/
def delay_for_count (n : ℕ) : ℕ :=
  if n ≤ 3 then RESTART_DELAY
  else if n ≤ 5 then min (RESTART_DELAY * 2) RESTART_BACKOFF_MAX
  else if n ≤ 10 then min (RESTART_DELAY * 4) RESTART_BACKOFF_MAX
  else RESTART_BACKOFF_MAX

/-- The supervisor's ledger state: the module-level `restart_timestamps`
list and the `restart_count` counter (lines 54-55). -/
structure SupState where
  restart_timestamps : List ℤ
  restart_count : ℕ
deriving DecidableEq

/-- `calculate_restart_delay` (lines 138-158): prune the ledger to the
trailing 24 hours, append `now`, set `restart_count` to the new length, and
return the scheduled delay together with the updated state. -/
def calculate_restart_delay (now : ℤ) (st : SupState) : ℕ × SupState :=
  let pruned := prune_timestamps now st.restart_timestamps
  let ts2 := pruned ++ [now]
  (delay_for_count ts2.length, ⟨ts2, ts2.length⟩)

/-- Outcome of the top of one `main` loop iteration (lines 363-375): either
the `while` guard stops the loop, or the iteration proceeds to spawn the
child, possibly after a cooldown sleep. -/
inductive TopOutcome
| stopLoop
| proceedSpawn (cooldown : ℕ) (st : SupState)
deriving DecidableEq

/-- Top of one `main` loop iteration (lines 363-375): the `while not
termination_requested` guard, then the daily-cap check: if
`restart_count >= MAX_RESTARTS`, sleep one hour (3600 s), reset the counter
to 0 and clear the ledger (lines 365-372), then fall through to the spawn. -/
def main_loop_top (st : SupState) (term : Bool) : TopOutcome :=
  if term then TopOutcome.stopLoop
  else if MAX_RESTARTS ≤ st.restart_count then TopOutcome.proceedSpawn 3600 ⟨[], 0⟩
  else TopOutcome.proceedSpawn 0 st

/-- Outcome of the tail of one `main` loop iteration, after the child's
`wait()` returned (lines 378-399): either the loop breaks, or it schedules
a restart after the computed delay with the updated ledger state. -/
inductive LoopOutcome
| exitLoop (st : SupState)
| restartAfter (delay : ℕ) (st : SupState)
deriving DecidableEq

/-- Tail of one `main` loop iteration after `current_process.wait()`
returned `return_code` (lines 378-399): if termination was requested, break
out of the loop; otherwise log, call `calculate_restart_delay()` and sleep
out the delay before the next spawn. The code never inspects
`return_code` beyond logging it, so the outcome does not depend on it. -/
def main_after_exit (st : SupState) (return_code : ℤ) (term : Bool) (now : ℤ) :
    LoopOutcome :=
  if term then LoopOutcome.exitLoop st
  else
    let r := calculate_restart_delay now st
    LoopOutcome.restartAfter r.1 r.2

/-- Child lifecycle events emitted by the main loop: a spawn
(`start_bot_process()`, line 375) and the observation of the child's exit
(`current_process.wait()` returning, line 378). -/
inductive ChildEvent
| spawnChild
| exitChild
deriving DecidableEq

/-- The event trace of `n` iterations of the main loop (lines 363-399):
each iteration spawns the child and then blocks on `wait()` until the exit
is observed, so the per-iteration trace is spawn-then-exit, strictly
sequential. -/
def loop_events : ℕ → List ChildEvent
  | 0 => []
  | n + 1 => ChildEvent.spawnChild :: ChildEvent.exitChild :: loop_events n

/-- Number of live child processes after a sequence of events: +1 on each
spawn, -1 on each observed exit. -/
def live_children (evs : List ChildEvent) : ℤ :=
  evs.foldl
    (fun acc e =>
      match e with
      | ChildEvent.spawnChild => acc + 1
      | ChildEvent.exitChild => acc - 1)
    0

/-- The interruptible backoff sleep (lines 396-399): `for _ in
range(int(delay)): if termination_requested: break; time.sleep(1)`.
`flag_time` is the instant (seconds from loop entry, possibly fractional)
at which `termination_requested` becomes true; `slept` is the whole seconds
slept so far; the first argument of the recursion is the remaining loop
iterations. Returns the total seconds slept when the loop exits. -/
def backoff_wait_from (flag_time : ℚ) : ℕ → ℕ → ℕ
  | 0, slept => slept
  | fuel + 1, slept =>
    if flag_time ≤ (slept : ℚ) then slept
    else backoff_wait_from flag_time fuel (slept + 1)

/-- Total seconds slept by the backoff wait of lines 396-399 for a delay of
`delay` seconds when the termination flag is set at instant `flag_time`. -/
def backoff_wait (delay : ℕ) (flag_time : ℚ) : ℕ :=
  backoff_wait_from flag_time delay 0

/-- A response of the Telegram `getMe` call as `check_bot_status` and
`health_check` consume it: HTTP status code, the JSON `ok` flag, and the
`result` fields read from it, plus the raw body text and elapsed time. -/
structure ApiResponse where
  status_code : ℕ
  ok : Bool
  bot_id : ℕ
  first_name : String
  username : String
  elapsed_ms : ℕ
  body : String
deriving DecidableEq

/-- Outcome of the outbound identity call: either a response, or a
`requests.RequestException` (the only exception class `requests.get` and
`response.json()` raise, per the requests library contract), carried as its
message. -/
inductive CallOutcome
| success (r : ApiResponse)
| requestError (msg : String)
deriving DecidableEq

/-- The value `check_bot_status` returns (lines 208-239): the `online` dict
with bot identity fields, or one of the two `error` dicts. -/
inductive BotStatus
| online (bot_id : ℕ) (bot_name : String) (bot_username : String) (response_time_ms : ℕ)
| apiError (message : String)
| httpError (http_status : ℕ) (message : String)
deriving DecidableEq

/-- The `status` field of a `check_bot_status` result dict. -/
def BotStatus.status_str : BotStatus → String
  | BotStatus.online _ _ _ _ => "online"
  | BotStatus.apiError _ => "error"
  | BotStatus.httpError _ _ => "error"

/-- `check_bot_status` (lines 208-239). The `Except` layer models an
uncaught Python exception escaping the function: the whole network
interaction sits inside `try`, and the `except requests.RequestException`
clause catches every exception the outcome type can produce, so every
branch returns a plain value (`Except.ok`). Missing token returns the
"BOT_TOKEN not set" error dict before the call (lines 210-212). -/
def check_bot_status (token : Option String) (outcome : CallOutcome) :
    Except String BotStatus :=
  match token with
  | none => Except.ok (BotStatus.apiError "BOT_TOKEN not set")
  | some _ =>
    match outcome with
    | CallOutcome.success r =>
      if r.status_code = 200 then
        if r.ok then
          Except.ok (BotStatus.online r.bot_id r.first_name r.username r.elapsed_ms)
        else
          Except.ok (BotStatus.httpError r.status_code ("API returned: " ++ r.body))
      else
        Except.ok (BotStatus.httpError r.status_code ("API returned: " ++ r.body))
    | CallOutcome.requestError e =>
      Except.ok (BotStatus.apiError ("API request failed: " ++ e))

/-- Outcome of the psutil host-stat sampling inside `get_system_stats`:
either the sampled figures, or an exception raised by one of the calls. -/
inductive StatsOutcome
| sample (cpu_percent memory_percent disk_percent memory_available_mb disk_free_gb : ℚ)
| statsExn (msg : String)
deriving DecidableEq

/-- The value `get_system_stats` returns (lines 187-205): the stats dict,
or the `error` dict from the catch-all `except` clause. -/
inductive SystemStats
| stats (cpu_percent memory_percent disk_percent memory_available_mb disk_free_gb : ℚ)
| statsError (msg : String)
deriving DecidableEq

/-- `get_system_stats` (lines 187-205): the whole body is inside `try`,
with a catch-all `except Exception` returning an error dict, so it returns
a plain value for every outcome of the underlying calls. -/
def get_system_stats : StatsOutcome → Except String SystemStats
  | StatsOutcome.sample c m d ma df => Except.ok (SystemStats.stats c m d ma df)
  | StatsOutcome.statsExn e => Except.ok (SystemStats.statsError e)

/-- The `process.status` field of the health payload (line 259): `running`
iff `current_process` exists and `poll()` is `None`. -/
def process_status_str (running : Bool) : String :=
  if running then "running" else "not_running"

/-- The `/health` branch of `HealthCheckHandler.do_GET` (lines 245-273),
reduced to the observables the claims speak about: given the
`check_bot_status` result and whether the child process is running, it
produces the HTTP status code it sends (always `send_response(200)`, line
270) and the top-level `status` field, initialised to "ok" (line 252) and
overwritten with "degraded" when `bot.status != "online"` or
`process.status != "running"` (lines 266-268). -/
def do_GET_health (bot : BotStatus) (proc_running : Bool) : ℕ × String :=
  let overall :=
    if bot.status_str ≠ "online" ∨ process_status_str proc_running ≠ "running"
    then "degraded" else "ok"
  (200, overall)

/-- Startup behaviour of the `health_check` thread body (lines 102-110):
with no `BOT_TOKEN` in the environment it logs and returns, disabling
periodic health checks; otherwise it enters its loop with the token. -/
inductive HealthInit
| disabled
| enabled (token : String)
deriving DecidableEq

/-- The token check at the top of `health_check` (lines 107-110). -/
def health_check_init (token : Option String) : HealthInit :=
  match token with
  | none => HealthInit.disabled
  | some t => HealthInit.enabled t

/-- Action taken by one iteration of the `health_check` loop towards the
child process. -/
inductive HCAction
| terminateChild
| noAction
deriving DecidableEq

/-- One iteration of the `health_check` loop body (lines 112-136): on a
response whose `ok` flag is falsy, if `current_process` exists and
`poll()` is `None`, call `current_process.terminate()` (lines 121-128); an
exception from the call is caught and only logged (lines 129-130). -/
def health_check_iteration (outcome : CallOutcome) (proc_running : Bool) : HCAction :=
  match outcome with
  | CallOutcome.success r =>
    if r.ok then HCAction.noAction
    else if proc_running then HCAction.terminateChild
    else HCAction.noAction
  | CallOutcome.requestError _ => HCAction.noAction

/-- What `main` does at startup as a function of the environment's
`BOT_TOKEN` (lines 340-363): it never reads the token, unconditionally
starts the health-server, keep-alive and health-check threads, and enters
the restart loop; no path calls `sys.exit` or raises. The token argument
records that the behaviour does not depend on it. -/
inductive StartupOutcome
| exitProcess (code : ℤ)
| runLoop
deriving DecidableEq

/-- Startup of `main` (lines 340-363): enters the restart loop for every
environment, including one with no `BOT_TOKEN`. -/
def main_startup (bot_token : Option String) : StartupOutcome :=
  StartupOutcome.runLoop

/-- The delay schedule is monotone in the restart count. -/
theorem delay_for_count_mono (n m : ℕ) (h : n ≤ m) :
    delay_for_count n ≤ delay_for_count m := by
  unfold delay_for_count RESTART_DELAY RESTART_BACKOFF_MAX
  split_ifs <;> omega

/-- Every scheduled delay is at most the backoff cap. -/
theorem delay_for_count_le_cap (n : ℕ) :
    delay_for_count n ≤ RESTART_BACKOFF_MAX := by
  unfold delay_for_count RESTART_DELAY RESTART_BACKOFF_MAX
  split_ifs <;> omega

/-- The delay returned by `calculate_restart_delay` is the schedule applied
to the pruned count plus one (the appended `now`). -/
theorem calculate_restart_delay_fst (now : ℤ) (st : SupState) :
    (calculate_restart_delay now st).1 =
      delay_for_count ((prune_timestamps now st.restart_timestamps).length + 1) := by
  simp [calculate_restart_delay]

/-- Claim C3 (confirmed): the delay schedule of `calculate_restart_delay`
is monotonically non-decreasing in the restart count N (the pruned ledger
length), and every returned delay is at most `RESTART_BACKOFF_MAX`. -/
theorem c3_thm :
    (∀ n m : ℕ, n ≤ m → delay_for_count n ≤ delay_for_count m) ∧
    (∀ (now : ℤ) (st : SupState),
      (calculate_restart_delay now st).1 ≤ RESTART_BACKOFF_MAX) := by
  refine ⟨delay_for_count_mono, ?_⟩
  intro now st
  rw [calculate_restart_delay_fst]
  exact delay_for_count_le_cap _

/-- Witness for C3 at concrete counts and a concrete ledger. -/
theorem c3_witness :
    delay_for_count 2 ≤ delay_for_count 7 ∧
    (calculate_restart_delay 100000 ⟨[50], 1⟩).1 ≤ RESTART_BACKOFF_MAX :=
  ⟨c3_thm.1 2 7 (by decide), c3_thm.2 100000 ⟨[50], 1⟩⟩

/-- Claim C4 (confirmed): after the prune step no timestamp at or below
`now - 86400` remains (every survivor is strictly newer), and pruning is
idempotent: pruning the pruned ledger at the same `now` changes nothing. -/
theorem c4_thm (now : ℤ) (ts : List ℤ) :
    (prune_timestamps now ts).all (fun t => decide (now - 86400 < t)) = true ∧
    prune_timestamps now (prune_timestamps now ts) = prune_timestamps now ts := by
  constructor
  · rw [List.all_eq_true]
    intro t ht
    unfold prune_timestamps at ht
    exact (List.mem_filter.mp ht).2
  · unfold prune_timestamps
    rw [List.filter_filter]
    congr 1
    funext t
    exact Bool.and_self _

/-- Claim C1, counterexample: with the identity probe reporting an error
and the child process not running, the `/health` handler still replies with
HTTP status 200 — `do_GET` hardcodes `send_response(200)` — while setting
the top-level status field to "degraded"; the claimed non-200 response for
the degraded case does not hold. -/
theorem c1_counterexample :
    do_GET_health (BotStatus.apiError "API request failed: timeout") false
      = (200, "degraded") := by
  decide

/-- Claim C1 as amended: the `/health` response always has HTTP status 200,
degraded or not; the top-level status field is "ok" (not "healthy") exactly
when the identity check reports online and the child process handle reports
still-running, and "degraded" otherwise. -/
theorem c1_amended (bot : BotStatus) (pr : Bool) :
    (do_GET_health bot pr).1 = 200 ∧
    (do_GET_health bot pr).2 =
      (if bot.status_str = "online" ∧ pr = true then "ok" else "degraded") := by
  refine ⟨rfl, ?_⟩
  unfold do_GET_health process_status_str
  cases pr <;> cases bot <;> simp [BotStatus.status_str]

/-- Claim C2, counterexample: when the child exits with code 0 and
termination was not requested, the loop does not terminate: starting from
an empty ledger at time 1000 it appends one ledger entry (restart count
goes 0 to 1) and schedules a respawn after the base delay, exactly as for a
crash exit. -/
theorem c2_counterexample :
    main_after_exit ⟨[], 0⟩ 0 false 1000
      = LoopOutcome.restartAfter 10 ⟨[1000], 1⟩ := by
  decide

/-- Claim C2 as amended: the main loop never inspects the child's exit
code. For every exit code (0 and 1 alike), when termination was not
requested, exactly one ledger entry (`now`) is appended after the prune,
the restart count becomes the new ledger length, and one respawn is
scheduled after the computed delay; the loop terminates only when
termination is requested. -/
theorem c2_amended (st : SupState) (return_code now : ℤ) :
    main_after_exit st return_code false now
      = LoopOutcome.restartAfter
          (delay_for_count ((prune_timestamps now st.restart_timestamps).length + 1))
          ⟨prune_timestamps now st.restart_timestamps ++ [now],
            (prune_timestamps now st.restart_timestamps).length + 1⟩ := by
  simp [main_after_exit, calculate_restart_delay]

/-- Claim C5 (confirmed): when the restart count has reached
`MAX_RESTARTS`, the top of the next loop iteration (termination not
requested) proceeds to the spawn after the one-hour (3600 s) cooldown, with
the ledger cleared and the restart count reset to zero; the outcome is
`proceedSpawn`, never `stopLoop`, so this path does not terminate the
supervisor. -/
theorem c5_thm (st : SupState) (h : MAX_RESTARTS ≤ st.restart_count) :
    main_loop_top st false = TopOutcome.proceedSpawn 3600 ⟨[], 0⟩ := by
  unfold main_loop_top
  simp [h]

/-- Witness for C5 with a ledger of 20 entries. -/
theorem c5_witness :
    MAX_RESTARTS ≤ (20 : ℕ) ∧
    main_loop_top ⟨List.replicate 20 (0 : ℤ), 20⟩ false
      = TopOutcome.proceedSpawn 3600 ⟨[], 0⟩ :=
  ⟨by decide, c5_thm ⟨List.replicate 20 (0 : ℤ), 20⟩ (by decide)⟩

/-- Prepending one spawn-exit pair leaves the live-child count of a trace
unchanged. -/
theorem live_children_cons₂ (l : List ChildEvent) :
    live_children (ChildEvent.spawnChild :: ChildEvent.exitChild :: l)
      = live_children l := by
  simp [live_children]

/-- Claim C6 (confirmed): along the event trace of any number of main-loop
iterations, every intermediate point has at most one live child, and every
spawn event happens at a point with zero live children — that is, only
after the previously spawned process has reported exit. -/
theorem c6_thm :
    (∀ n k : ℕ, live_children ((loop_events n).take k) ≤ 1) ∧
    (∀ n k : ℕ, (loop_events n)[k]? = some ChildEvent.spawnChild →
      live_children ((loop_events n).take k) = 0) := by
  constructor
  · intro n
    induction n with
    | zero => intro k; simp [loop_events, live_children]
    | succ n ih =>
      intro k
      rcases k with _ | (_ | k)
      · simp [live_children]
      · simp [loop_events, live_children]
      · rw [loop_events]
        simp only [List.take_succ_cons]
        rw [live_children_cons₂]
        exact ih k
  · intro n
    induction n with
    | zero => intro k h; simp [loop_events] at h
    | succ n ih =>
      intro k h
      rcases k with _ | (_ | k)
      · simp [live_children]
      · rw [loop_events] at h
        simp at h
      · rw [loop_events] at h ⊢
        simp only [List.getElem?_cons_succ] at h
        simp only [List.take_succ_cons]
        rw [live_children_cons₂]
        exact ih k h

/-- Witness for C6 at a concrete trace: two iterations, the spawn at index
2 happens with zero live children, and the live count is bounded at the
3-event point. -/
theorem c6_witness :
    live_children ((loop_events 2).take 3) ≤ 1 ∧
    (loop_events 2)[2]? = some ChildEvent.spawnChild ∧
    live_children ((loop_events 2).take 2) = 0 :=
  ⟨c6_thm.1 2 3, by decide, c6_thm.2 2 2 (by decide)⟩

/-- Once the slept time is within one second past the flag instant, it
stays so: the loop checks the flag before each further one-second sleep. -/
theorem backoff_wait_from_le (t : ℚ) :
    ∀ (fuel slept : ℕ), (slept : ℚ) ≤ t + 1 →
      (backoff_wait_from t fuel slept : ℚ) ≤ t + 1 := by
  intro fuel
  induction fuel with
  | zero =>
    intro slept h
    simpa [backoff_wait_from] using h
  | succ fuel ih =>
    intro slept h
    rw [backoff_wait_from]
    split_ifs with hf
    · exact h
    · apply ih
      have hlt : (slept : ℚ) < t := lt_of_not_le hf
      push_cast
      linarith

/-- Claim C7 (confirmed): for every backoff delay and every instant
`t ≥ 0` at which the termination flag is set, the backoff wait of lines
396-399 sleeps at most `t + 1` seconds in total — it exits within one
one-second polling interval of the flag being set instead of sleeping out
the remainder of the delay. -/
theorem c7_thm (delay : ℕ) (t : ℚ) (h : 0 ≤ t) :
    (backoff_wait delay t : ℚ) ≤ t + 1 := by
  unfold backoff_wait
  apply backoff_wait_from_le
  push_cast
  linarith

/-- Witness for C7: flag set at 1.5 s into a 10 s backoff wait. -/
theorem c7_witness :
    (0 : ℚ) ≤ 3 / 2 ∧ (backoff_wait 10 (3 / 2) : ℚ) ≤ 3 / 2 + 1 :=
  ⟨by norm_num, c7_thm 10 (3 / 2) (by norm_num)⟩

/-- Claim C8, counterexample: with no `BOT_TOKEN` in the environment,
`main` still enters the restart loop (it never exits the process), and the
`health_check` thread merely disables itself; the claimed immediate exit
with non-zero status does not happen. -/
theorem c8_counterexample :
    main_startup none = StartupOutcome.runLoop ∧
    health_check_init none = HealthInit.disabled :=
  ⟨rfl, rfl⟩

/-- Claim C8 as amended: when the bot auth token is absent at startup, the
supervisor does not exit: `main` proceeds into the restart loop regardless
of the token, the periodic health-check loop disables itself (logs and
returns), and `check_bot_status` reports the explicit "BOT_TOKEN not set"
error value for every call outcome. -/
theorem c8_amended :
    main_startup none = StartupOutcome.runLoop ∧
    health_check_init none = HealthInit.disabled ∧
    ∀ o : CallOutcome,
      check_bot_status none o
        = Except.ok (BotStatus.apiError "BOT_TOKEN not set") :=
  ⟨rfl, rfl, fun _ => rfl⟩

/-- Claim C9 (confirmed): for every token, every outcome of the remote
identity call (response or request exception) and every outcome of host
stat collection (sample or exception), `check_bot_status` and
`get_system_stats` return an explicit value (`Except.ok`) — no uncaught
exception escapes either probe, so the health handler always has a value to
embed in its response. -/
theorem c9_thm :
    (∀ (token : Option String) (o : CallOutcome),
      ∃ r, check_bot_status token o = Except.ok r) ∧
    (∀ s : StatsOutcome, ∃ v, get_system_stats s = Except.ok v) := by
  constructor
  · intro token o
    cases token with
    | none => exact ⟨_, rfl⟩
    | some tk =>
      cases o with
      | success r =>
        dsimp only [check_bot_status]
        split_ifs <;> exact ⟨_, rfl⟩
      | requestError e => exact ⟨_, rfl⟩
  · intro s
    cases s with
    | sample c m d ma df => exact ⟨_, rfl⟩
    | statsExn e => exact ⟨_, rfl⟩

/-- Claim C10 (confirmed): whenever the periodic `health_check` loop
receives a response whose `ok` flag is not true while the child process is
still running, the iteration calls `terminate()` on the child — it
actively kills the child so the main loop's `wait()` returns and a restart
cycle begins, rather than only reporting degraded status. -/
theorem c10_thm (sc bid ms : ℕ) (fn un body : String) :
    health_check_iteration
        (CallOutcome.success ⟨sc, false, bid, fn, un, ms, body⟩) true
      = HCAction.terminateChild := by
  rfl
